import Mathlib

/-!
A verification development for the flow-platform-node-core library.

The TypeScript sources are embedded shallowly: JavaScript runtime values are
modelled by the inductive `JsVal`, fallible evaluation (property access on
null, calling a method that does not exist) by `Except String`, and each
function of the library by a Lean definition that mirrors its source line by
line.  Numbers are modelled as integers — every numeric value the claims
exercise is integral; float-only behaviour is out of scope and noted where
it is approximated.
-/

/-- A JavaScript runtime value as the library's code observes it.
Objects and arrays are modelled structurally; reference identity is not
modelled, so strict equality between two objects or arrays is approximated
as `false` (the typical case of distinct references). -/
inductive JsVal : Type where
  | null : JsVal
  | undef : JsVal
  | bool : Bool → JsVal
  | num : Int → JsVal
  | str : String → JsVal
  | arr : List JsVal → JsVal
  | obj : List (String × JsVal) → JsVal

/-- `v === null || v === undefined`. -/
def jsNullish : JsVal → Bool
  | JsVal.null => true
  | JsVal.undef => true
  | _ => false

/-- JavaScript `typeof v` (note `typeof null = "object"`). -/
def jsTypeof : JsVal → String
  | JsVal.null => "object"
  | JsVal.undef => "undefined"
  | JsVal.bool _ => "boolean"
  | JsVal.num _ => "number"
  | JsVal.str _ => "string"
  | JsVal.arr _ => "object"
  | JsVal.obj _ => "object"

/-- JavaScript truthiness of a value. -/
def jsTruthy : JsVal → Bool
  | JsVal.null => false
  | JsVal.undef => false
  | JsVal.bool b => b
  | JsVal.num n => !(n == 0)
  | JsVal.str s => !(s == "")
  | JsVal.arr _ => true
  | JsVal.obj _ => true

/-- `Array.isArray v`. -/
def jsIsArray : JsVal → Bool
  | JsVal.arr _ => true
  | _ => false

mutual

/-- JavaScript `String(v)`.  Arrays stringify as their elements joined by
commas (null/undefined elements render empty), plain objects as
`[object Object]`. -/
def jsToString : JsVal → String
  | JsVal.null => "null"
  | JsVal.undef => "undefined"
  | JsVal.bool b => if b then "true" else "false"
  | JsVal.num n => toString n
  | JsVal.str s => s
  | JsVal.arr xs => String.intercalate "," (jsArrParts xs)
  | JsVal.obj _ => "[object Object]"

/-- The parts of `Array.prototype.toString`: null and undefined elements
render as the empty string. -/
def jsArrParts : List JsVal → List String
  | [] => []
  | JsVal.null :: xs => "" :: jsArrParts xs
  | JsVal.undef :: xs => "" :: jsArrParts xs
  | x :: xs => jsToString x :: jsArrParts xs

end

/-- Decimal digits to a natural number; `none` when a non-digit occurs. -/
def parseDecDigits (cs : List Char) : Option Nat :=
  if cs ≠ [] ∧ cs.all (fun c => c.isDigit)
  then some (cs.foldl (fun a c => a * 10 + (c.toNat - 48)) 0)
  else none

/-- JavaScript `Number(s)` restricted to integral literals: trimmed, empty
means 0, an optional sign followed by decimal digits; anything else is NaN
(`none`).  Float, hex and exponent literals are not modelled — no claim
exercises them. -/
def jsStringToNumber (s : String) : Option Int :=
  let t := s.trim
  if t = "" then some 0
  else match t.data with
    | '-' :: cs => (parseDecDigits cs).map (fun n => -(n : Int))
    | '+' :: cs => (parseDecDigits cs).map (fun n => (n : Int))
    | cs => (parseDecDigits cs).map (fun n => (n : Int))

/-- JavaScript `ToNumber`; `none` models NaN. -/
def jsToNumber : JsVal → Option Int
  | JsVal.null => some 0
  | JsVal.undef => Option.none
  | JsVal.bool b => some (if b then 1 else 0)
  | JsVal.num n => some n
  | JsVal.str s => jsStringToNumber s
  | JsVal.arr xs => jsStringToNumber (jsToString (JsVal.arr xs))
  | JsVal.obj _ => Option.none

/-- JavaScript strict equality `===`.  Two objects or arrays compare by
reference in JavaScript; references are not modelled, so this returns
`false` for them (distinct references). -/
def jsStrictEq : JsVal → JsVal → Bool
  | JsVal.null, JsVal.null => true
  | JsVal.undef, JsVal.undef => true
  | JsVal.bool a, JsVal.bool b => a == b
  | JsVal.num a, JsVal.num b => a == b
  | JsVal.str a, JsVal.str b => a == b
  | _, _ => false

/-- `ToPrimitive` with number hint: arrays and objects convert via their
string form. -/
def jsToPrimitive : JsVal → JsVal
  | JsVal.arr xs => JsVal.str (jsToString (JsVal.arr xs))
  | JsVal.obj _ => JsVal.str "[object Object]"
  | v => v

/-- JavaScript abstract relational comparison `a < b`: both operands to
primitives; two strings compare lexicographically, otherwise both to
numbers with NaN making the comparison false. -/
def jsLt (a b : JsVal) : Bool :=
  match jsToPrimitive a, jsToPrimitive b with
  | JsVal.str x, JsVal.str y => decide (x < y)
  | pa, pb =>
    match jsToNumber pa, jsToNumber pb with
    | some x, some y => decide (x < y)
    | _, _ => false

/-- JavaScript `a > b` is the relational comparison of the swapped pair. -/
def jsGt (a b : JsVal) : Bool := jsLt b a

/-- Does `small` occur as a contiguous run at the head of `big`? -/
def charsStartWith : List Char → List Char → Bool
  | _, [] => true
  | [], _ :: _ => false
  | h :: t, n :: ns => h == n && charsStartWith t ns

/-- Does `needle` occur contiguously anywhere in `big`? -/
def charsContain : List Char → List Char → Bool
  | [], n => n.isEmpty
  | h :: t, n => charsStartWith (h :: t) n || charsContain t n

/-- JavaScript `hay.includes(needle)`. -/
def jsIncludes (hay needle : String) : Bool :=
  charsContain hay.data needle.data

/-- Property read on a non-nullish value, total: objects look the key up
(missing means undefined), strings and arrays expose `length`, any other
read yields undefined.  Numeric array indexing is not modelled — no claim
reads an array element by property key. -/
def getPropD : JsVal → String → JsVal
  | JsVal.obj fs, k => match fs.lookup k with
    | some v => v
    | Option.none => JsVal.undef
  | JsVal.str s, k => if k = "length" then JsVal.num (s.length : Int) else JsVal.undef
  | JsVal.arr xs, k => if k = "length" then JsVal.num (xs.length : Int) else JsVal.undef
  | _, _ => JsVal.undef

/-- Property read `v[k]`: throws a TypeError on null/undefined (the V8
message text), otherwise reads totally. -/
def getProp (v : JsVal) (k : String) : Except String JsVal :=
  match v with
  | JsVal.null => Except.error ("Cannot read properties of null (reading '" ++ k ++ "')")
  | JsVal.undef => Except.error ("Cannot read properties of undefined (reading '" ++ k ++ "')")
  | v2 => Except.ok (getPropD v2 k)

/-- `v[kv]` with a dynamic key: the key value is converted by `ToString`. -/
def getPropKey (v kv : JsVal) : Except String JsVal :=
  getProp v (jsToString kv)

/-- Insert-or-overwrite on a string-keyed association list: the semantics
shared by `Map.prototype.set` and JavaScript object property assignment —
an existing key keeps its position and gets the new value, a new key is
appended. -/
def mapSet {α : Type} (m : List (String × α)) (k : String) (v : α) : List (String × α) :=
  if m.any (fun p => p.1 == k) then m.map (fun p => if p.1 == k then (k, v) else p)
  else m ++ [(k, v)]

/-- `Map.prototype.get` / object key lookup. -/
def mapGet {α : Type} (m : List (String × α)) (k : String) : Option α :=
  m.lookup k

/-! ## Compatibility validator (src/validators/compatibility-validator.ts) -/

/-- The runtime value `check`'s two-level lookup can leave in `level`.
The four declared level strings get dedicated constructors (`partialLvl`
renders the source's `partial`, a Lean keyword); the rest arise because
`matrix` and its rows are plain object literals, so a lookup on an
arbitrary string can walk the prototype chain and produce a member of
`Object.prototype` or `Function.prototype` rather than a declared level:
a string (a function's `name`), a number (a function's `length`), a
function, an object, null (`Object.prototype.__proto__`), or undefined (a
genuine miss).  `thrown` marks the two `Function.prototype` accessor
properties (`caller`, `arguments`) whose get throws a TypeError: there
the source returns nothing — the marker keeps the event visible in the
total model and no declared level is mistaken for it.  No reachable
lookup produces `strVal "none"`, so comparing against the `none`
constructor coincides with the source's `!== 'none'` string comparison on
every reachable value. -/
inductive CompatibilityLevel : Type where
  | full
  | partialLvl
  | conditional
  | none
  | strVal (s : String)
  | numVal (n : Nat)
  | fnVal (name : String) (arity : Nat) (isCtor : Bool)
  | objVal (d : String)
  | nullVal
  | undefVal
  | thrown (msg : String)
deriving Repr, DecidableEq

/-- The value returned by `CompatibilityValidator.check`. -/
structure CheckResult where
  level : CompatibilityLevel
  valid : Bool
deriving Repr, DecidableEq

/-- Issue severities of `validateCompatibility`. -/
inductive Severity : Type where
  | error
  | warning
  | info
deriving Repr, DecidableEq

/-- An issue reported by `validateCompatibility`. -/
structure Issue where
  severity : Severity
  message : String
deriving Repr, DecidableEq

/-- The optional schema carried by a pin descriptor: the code only ever
reads its `type` field, which may itself be absent (undefined). -/
structure SchemaV where
  type : Option String
deriving Repr, DecidableEq

/-- A pin descriptor `{type, pin, schema?}` as passed to
`validateCompatibility`. -/
structure PinRef where
  type : String
  pin : String
  schema : Option SchemaV
deriving Repr, DecidableEq

/-- The value returned by `validateCompatibility` (the `issues` list is
always present in the source's return value). -/
structure ValidationOutcome where
  compatible : Bool
  issues : List Issue
deriving Repr, DecidableEq

namespace CompatibilityValidator

/-- The own entries of the `matrix` object literal, transcribed entry by
entry from `CompatibilityValidator.check`. -/
def matrixRows : List (String × List (String × CompatibilityLevel)) :=
  [ ("postgresql-query",
      [ ("data-filter", CompatibilityLevel.full),
        ("field-mapper", CompatibilityLevel.full),
        ("mongodb-operations", CompatibilityLevel.partialLvl) ]),
    ("mongodb-operations",
      [ ("data-filter", CompatibilityLevel.full),
        ("field-mapper", CompatibilityLevel.full),
        ("postgresql-query", CompatibilityLevel.partialLvl),
        ("mongodb-operations", CompatibilityLevel.full) ]),
    ("data-filter",
      [ ("field-mapper", CompatibilityLevel.full),
        ("mongodb-operations", CompatibilityLevel.full),
        ("postgresql-query", CompatibilityLevel.partialLvl) ]),
    ("field-mapper",
      [ ("mongodb-operations", CompatibilityLevel.full),
        ("postgresql-query", CompatibilityLevel.partialLvl),
        ("data-filter", CompatibilityLevel.full) ]) ]

/-- The string-keyed function-valued members every plain object literal
(the matrix, its rows) inherits from `Object.prototype`, as
(key, function name, function arity, is a constructor): `constructor`
holds the `Object` constructor itself (name "Object"), the others are the
standard methods.  The `__proto__` accessor is handled separately. -/
def objectProtoFns : List (String × String × Nat × Bool) :=
  [ ("constructor", "Object", 1, true),
    ("hasOwnProperty", "hasOwnProperty", 1, false),
    ("isPrototypeOf", "isPrototypeOf", 1, false),
    ("propertyIsEnumerable", "propertyIsEnumerable", 1, false),
    ("toLocaleString", "toLocaleString", 0, false),
    ("toString", "toString", 0, false),
    ("valueOf", "valueOf", 0, false),
    ("__defineGetter__", "__defineGetter__", 2, false),
    ("__defineSetter__", "__defineSetter__", 2, false),
    ("__lookupGetter__", "__lookupGetter__", 1, false),
    ("__lookupSetter__", "__lookupSetter__", 1, false) ]

/-- What `matrix[sourceType]` evaluates to: an own row, an inherited
`Object.prototype` member (a function, or `Object.prototype` itself
through the `__proto__` accessor), or undefined. -/
inductive RowVal : Type where
  | row (entries : List (String × CompatibilityLevel))
  | fnMember (name : String) (arity : Nat) (isCtor : Bool)
  | protoObj
  | undef

/-- The first-level access `matrix[sourceType]`: own keys shadow the
prototype chain; a miss on both is undefined. -/
def matrixFirst (sourceType : String) : RowVal :=
  match matrixRows.lookup sourceType with
  | some entries => RowVal.row entries
  | Option.none =>
    if sourceType = "__proto__" then RowVal.protoObj
    else match objectProtoFns.lookup sourceType with
      | some (n, a, c) => RowVal.fnMember n a c
      | Option.none => RowVal.undef

/-- Property read on a row (a plain object literal): own declared levels,
then the inherited `Object.prototype` members, else undefined. -/
def rowProp (entries : List (String × CompatibilityLevel)) (t : String) : CompatibilityLevel :=
  match entries.lookup t with
  | some l => l
  | Option.none =>
    if t = "__proto__" then CompatibilityLevel.objVal "Object.prototype"
    else match objectProtoFns.lookup t with
      | some (n, a, c) => CompatibilityLevel.fnVal n a c
      | Option.none => CompatibilityLevel.undefVal

/-- Property read on an inherited built-in function: its own `name`,
`length` and (for the `Object` constructor only) `prototype`; then
`Function.prototype` — `apply`, `bind`, `call`, `constructor` (the
`Function` constructor), `toString`, and the accessor properties `caller`
and `arguments` whose get throws a TypeError; then the remaining
`Object.prototype` members; else undefined.  Own static members of the
`Object` constructor beyond `name`/`length`/`prototype` (`Object.keys`,
`Object.assign`, …, an engine-version-dependent set) are not enumerated:
no claim statement reaches them, and every theorem's hypotheses exclude
function receivers. -/
def fnProp (name : String) (arity : Nat) (isCtor : Bool) (t : String) : CompatibilityLevel :=
  if t = "name" then CompatibilityLevel.strVal name
  else if t = "length" then CompatibilityLevel.numVal arity
  else if t = "prototype" then
    (if isCtor then CompatibilityLevel.objVal "Object.prototype" else CompatibilityLevel.undefVal)
  else if t = "apply" then CompatibilityLevel.fnVal "apply" 2 false
  else if t = "bind" then CompatibilityLevel.fnVal "bind" 1 false
  else if t = "call" then CompatibilityLevel.fnVal "call" 1 false
  else if t = "constructor" then CompatibilityLevel.fnVal "Function" 1 true
  else if t = "toString" then CompatibilityLevel.fnVal "toString" 0 false
  else if t = "caller" ∨ t = "arguments" then
    CompatibilityLevel.thrown "'caller', 'callee', and 'arguments' properties may not be accessed on strict mode functions or the arguments objects for calls to them"
  else if t = "__proto__" then CompatibilityLevel.objVal "Function.prototype"
  else match objectProtoFns.lookup t with
    | some (n, a, c) => CompatibilityLevel.fnVal n a c
    | Option.none => CompatibilityLevel.undefVal

/-- Property read on `Object.prototype` itself (reached through
`matrix['__proto__']`): its own members, with its own `__proto__` accessor
yielding null; else undefined. -/
def protoObjProp (t : String) : CompatibilityLevel :=
  if t = "__proto__" then CompatibilityLevel.nullVal
  else match objectProtoFns.lookup t with
    | some (n, a, c) => CompatibilityLevel.fnVal n a c
    | Option.none => CompatibilityLevel.undefVal

/-- `matrix[sourceType]?.[targetType]`: the full JavaScript lookup,
prototype chains included; `undefVal` when the optional chain
short-circuits on undefined or the second read misses everywhere.  (The
optional chain only guards the first result being null/undefined; it does
not stop the second read from hitting inherited members.) -/
def matrixLookup (sourceType targetType : String) : CompatibilityLevel :=
  match matrixFirst sourceType with
  | RowVal.row entries => rowProp entries targetType
  | RowVal.fnMember n a c => fnProp n a c targetType
  | RowVal.protoObj => protoObjProp targetType
  | RowVal.undef => CompatibilityLevel.undefVal

/-- JavaScript truthiness of the looked-up value, for the `|| 'none'`
default: undefined and null are falsy, a string is falsy only when empty,
a number only when zero; functions and objects are truthy.  The `thrown`
marker passes through (the source never reaches the `||` there). -/
def levelTruthy : CompatibilityLevel → Bool
  | CompatibilityLevel.undefVal => false
  | CompatibilityLevel.nullVal => false
  | CompatibilityLevel.strVal s => !(s == "")
  | CompatibilityLevel.numVal n => !(n == 0)
  | _ => true

/-- `CompatibilityValidator.check`: `matrix[sourceType]?.[targetType] ||
'none'` and `valid = (level !== 'none')`.  On the two inputs whose lookup
reaches a throwing accessor the source throws instead of returning; the
model keeps `check` total and leaves the `thrown` marker in `level` (its
`valid` field is the same formula and carries no meaning there). -/
def check (sourceType targetType : String) : CheckResult :=
  let raw := matrixLookup sourceType targetType
  let level := if levelTruthy raw then raw else CompatibilityLevel.none
  { level := level, valid := level != CompatibilityLevel.none }

/-- Rendering of a possibly-undefined schema type inside a template
literal (`${undefined}` prints "undefined"). -/
def schemaTypeText (o : Option String) : String := o.getD "undefined"

/-- `CompatibilityValidator.validateCompatibility`, step for step: run
`check`; an invalid base level pushes one error issue; two present schemas
whose `type` fields differ with neither being `any` push one warning;
`compatible` is the base validity conjoined with the absence of
error-severity issues. -/
def validateCompatibility (source target : PinRef) : ValidationOutcome :=
  let basicCheck := check source.type target.type
  let baseIssues : List Issue :=
    if basicCheck.valid then []
    else [{ severity := Severity.error,
            message := "No compatibility rule found between " ++ source.type ++ " and " ++ target.type }]
  let schemaIssues : List Issue :=
    match source.schema, target.schema with
    | some ss, some ts =>
      if ss.type != ts.type && ss.type != some "any" && ts.type != some "any"
      then [{ severity := Severity.warning,
              message := "Schema type mismatch: source outputs '" ++ schemaTypeText ss.type ++
                "' but target expects '" ++ schemaTypeText ts.type ++ "'" }]
      else []
    | _, _ => []
  let issues := baseIssues ++ schemaIssues
  { compatible := basicCheck.valid && ((issues.filter (fun i => i.severity == Severity.error)).length == 0),
    issues := issues }

end CompatibilityValidator

example : CompatibilityValidator.check "notification-node" "ai-ml-node" =
    { level := CompatibilityLevel.none, valid := false } := by decide

example : CompatibilityValidator.check "mongodb-operations" "mongodb-operations" =
    { level := CompatibilityLevel.full, valid := true } := by decide

/-! ## The result envelope (src/interfaces/node.interface.ts) -/

/-- The `metrics` member of the result envelope. -/
structure Metrics where
  executionTime : Nat
  recordsProcessed : Nat
deriving Repr, DecidableEq

/-- The result envelope `NodeResult<T>` every `execute` resolves to. -/
structure NodeResult (α : Type) where
  success : Bool
  data : Option α
  error : Option String
  metrics : Option Metrics

/-- The TypeError message for calling a method that is not there:
null/undefined receivers raise a property read error, any other receiver
without the method raises "… is not a function" (V8 texts). -/
def callMethodErr (recv : JsVal) (path methodName : String) : String :=
  match recv with
  | JsVal.null => "Cannot read properties of null (reading '" ++ methodName ++ "')"
  | JsVal.undef => "Cannot read properties of undefined (reading '" ++ methodName ++ "')"
  | _ => path ++ "." ++ methodName ++ " is not a function"

/-- `Array.prototype.every` with a possibly-throwing callback: JavaScript
short-circuits on the first false. -/
def arrAllM (f : JsVal → Except String Bool) : List JsVal → Except String Bool
  | [] => Except.ok true
  | x :: xs => do
    let b ← f x
    if b then arrAllM f xs else Except.ok false

/-- `Array.prototype.filter` with a possibly-throwing callback. -/
def arrFilterM (f : JsVal → Except String Bool) : List JsVal → Except String (List JsVal)
  | [] => Except.ok []
  | x :: xs => do
    let b ← f x
    let rest ← arrFilterM f xs
    Except.ok (if b then x :: rest else rest)

/-- `Array.prototype.map` with a possibly-throwing callback. -/
def arrMapM (f : JsVal → Except String JsVal) : List JsVal → Except String (List JsVal)
  | [] => Except.ok []
  | x :: xs => do
    let y ← f x
    let ys ← arrMapM f xs
    Except.ok (y :: ys)

/-! ## Data filter node (src/nodes/transformation/data-filter.node.ts) -/

/-- Output of the data-filter node: `{filtered, filtered_count}`. -/
structure DataFilterOutput where
  filtered : List JsVal
  filtered_count : Nat

namespace DataFilterNode

/-- The switch of the filter callback on `condition.operator`: the five
operators (compared by `===` against string literals, so non-string
operators fall through) and the default, false.  The switch itself never
throws, so it is factored out as a pure function; `condition.value` is
hoisted before it: the condition is non-nullish once its `field` read
succeeded, so that read cannot fail and hoisting is observationally equal
to the per-case reads of the source. -/
def opSwitch (op fieldValue value : JsVal) : Bool :=
  match op with
  | JsVal.str s =>
    if s = "equals" then jsStrictEq fieldValue value
    else if s = "not_equals" then !(jsStrictEq fieldValue value)
    else if s = "greater_than" then jsGt fieldValue value
    else if s = "less_than" then jsLt fieldValue value
    else if s = "contains" then jsIncludes (jsToString fieldValue) (jsToString value)
    else false
  | _ => false

/-- The filter callback body: read `condition.field`, `item[condition.field]`,
`condition.operator` and `condition.value`, then run the pure switch. -/
def matchCond (item cond : JsVal) : Except String Bool := do
  let fieldV ← getProp cond "field"
  let fieldValue ← getPropKey item fieldV
  let op ← getProp cond "operator"
  let value ← getProp cond "value"
  Except.ok (opSwitch op fieldValue value)

/-- The pure value of a condition check when it does not throw (errors
collapse to false; they cannot occur on non-nullish items/conditions). -/
def condHolds (item cond : JsVal) : Bool :=
  match matchCond item cond with
  | Except.ok b => b
  | Except.error _ => false

/-- The try-block of `DataFilterNode.execute`:
`input.data.filter(item => input.conditions.every(cond => …))`.  The
`input.conditions` read happens inside the filter callback, per item, as
in the source. -/
def executeBody (input : JsVal) : Except String (List JsVal) := do
  let dataV ← getProp input "data"
  match dataV with
  | JsVal.arr xs =>
    arrFilterM (fun item => do
      let condsV ← getProp input "conditions"
      match condsV with
      | JsVal.arr cs => arrAllM (fun c => matchCond item c) cs
      | other => Except.error (callMethodErr other "input.conditions" "every")) xs
  | other => Except.error (callMethodErr other "input.data" "filter")

/-- `DataFilterNode.execute`: the catch clause converts any thrown error
into `{success:false, error}` (no data, no metrics); success reports the
filtered list, its length twice (as `filtered_count` and
`recordsProcessed`) and the elapsed time. -/
def execute (elapsed : Nat) (input : JsVal) : NodeResult DataFilterOutput :=
  match executeBody input with
  | Except.ok filtered =>
    { success := true,
      data := some { filtered := filtered, filtered_count := filtered.length },
      error := Option.none,
      metrics := some { executionTime := elapsed, recordsProcessed := filtered.length } }
  | Except.error e =>
    { success := false, data := Option.none, error := some e, metrics := Option.none }

end DataFilterNode

/-! ## Field mapper node (src/nodes/transformation/field-mapper.node.ts) -/

/-- Output of the field-mapper node: `{mapped}`. -/
structure FieldMapperOutput where
  mapped : JsVal

/-- The oracle standing for `new Function('value', body)` compiled and
applied to a value: an error models a compile-time SyntaxError or a throw
from the user-supplied snippet (both are caught by the same try in the
source). -/
abbrev FnOracle := String → JsVal → Except String JsVal

namespace FieldMapperNode

/-- One iteration of the `input.mapping.forEach` callback.  The mapping
entry is non-nullish once its `sourceField` read succeeded, so the later
reads of `transformation`, `targetField` and `parameters` cannot fail and
are taken totally; unknown transformations assign nothing (switch without
default). -/
def applyMapping (evalFn : FnOracle) (item : JsVal) (result : List (String × JsVal))
    (m : JsVal) : Except String (List (String × JsVal)) := do
  let sfV ← getProp m "sourceField"
  let sourceValue ← getPropKey item sfV
  let trV ← getProp m "transformation"
  let tf := jsToString (getPropD m "targetField")
  let params := getPropD m "parameters"
  match trV with
  | JsVal.str s =>
    if s = "rename" then
      Except.ok (mapSet result tf sourceValue)
    else if s = "function" then
      let fbV := if jsNullish params then JsVal.undef else getPropD params "functionBody"
      if jsTruthy fbV then
        match evalFn (jsToString fbV) sourceValue with
        | Except.ok v => Except.ok (mapSet result tf v)
        | Except.error _ => Except.ok (mapSet result tf sourceValue)
      else Except.ok (mapSet result tf sourceValue)
    else if s = "constant" then
      let cv := if jsNullish params then JsVal.undef else getPropD params "constantValue"
      Except.ok (mapSet result tf cv)
    else Except.ok result
  | _ => Except.ok result

/-- `input.mapping.forEach(...)`, threading the result object through the
mapping entries in order. -/
def applyMappings (evalFn : FnOracle) (item : JsVal) :
    List JsVal → List (String × JsVal) → Except String (List (String × JsVal))
  | [], acc => Except.ok acc
  | m :: ms, acc => do
    let acc2 ← applyMapping evalFn item acc m
    applyMappings evalFn item ms acc2

/-- The `sourceData.map` callback: build one fresh result object.  The
`input.mapping` read happens inside the callback, per item, as in the
source. -/
def mapItem (evalFn : FnOracle) (input item : JsVal) : Except String JsVal := do
  let mappingV ← getProp input "mapping"
  match mappingV with
  | JsVal.arr ms => do
    let fields ← applyMappings evalFn item ms []
    Except.ok (JsVal.obj fields)
  | other => Except.error (callMethodErr other "input.mapping" "forEach")

/-- The try-block of `FieldMapperNode.execute`: wrap a non-array source
into a one-element list, map every item, and return `mapped` (the whole
array, or its single element for a non-array source) together with
`sourceData.length`. -/
def executeBody (evalFn : FnOracle) (input : JsVal) : Except String (JsVal × Nat) := do
  let source ← getProp input "source"
  match source with
  | JsVal.arr xs => do
    let mapped ← arrMapM (mapItem evalFn input) xs
    Except.ok (JsVal.arr mapped, xs.length)
  | v => do
    let mapped ← arrMapM (mapItem evalFn input) [v]
    Except.ok (mapped.headD JsVal.undef, 1)

/-- `FieldMapperNode.execute` with its catch clause. -/
def execute (evalFn : FnOracle) (elapsed : Nat) (input : JsVal) :
    NodeResult FieldMapperOutput :=
  match executeBody evalFn input with
  | Except.ok (mapped, n) =>
    { success := true,
      data := some { mapped := mapped },
      error := Option.none,
      metrics := some { executionTime := elapsed, recordsProcessed := n } }
  | Except.error e =>
    { success := false, data := Option.none, error := some e, metrics := Option.none }

/-- `FieldMapperNode.validate`: the base null/undefined check, then
`Array.isArray(input.source) || typeof input.source === 'object'`, then
`Array.isArray(input.mapping)` (note `typeof null === 'object'`). -/
def validate (input : JsVal) : Bool :=
  !(jsNullish input) &&
  (jsIsArray (getPropD input "source") || jsTypeof (getPropD input "source") == "object") &&
  jsIsArray (getPropD input "mapping")

end FieldMapperNode

/-! ## PostgreSQL query node (unnamed source part: PostgreSQLQueryNode) -/

/-- What `pg` returns from `client.query`: `rowCount` may be null. -/
structure PgQueryResult where
  rows : List JsVal
  rowCount : Option Nat

/-- Output of the PostgreSQL node: `{result, rowCount}`. -/
structure PostgreSQLOutput where
  result : List JsVal
  rowCount : Nat

/-- The behaviour of the `pg` client during one `execute` call: each
operation either returns or throws (the string being the Error message).
The connection string and timeout configure the real client; the oracle
already fixes the outcome, so they only flow through. -/
structure PGClientBehavior where
  connect : Except String Unit
  query : JsVal → JsVal → Except String PgQueryResult
  closeConn : Except String Unit

namespace PostgreSQLQueryNode

/-- `queryResult.rowCount || 0`: null and 0 both give 0. -/
def rowCountOrZero (o : Option Nat) : Nat := o.getD 0

/-- The try-block of `PostgreSQLQueryNode.execute` over an arbitrary input
value: `new Client({connectionString: input.connectionString, …})` reads
the connection string first (a nullish input throws here, inside the try),
then connect, then `client.query(input.query, input.parameters || [])`
reads its two arguments and runs the query. -/
def executeBody (cb : PGClientBehavior) (input : JsVal) :
    Except String (List JsVal × Nat) := do
  let _connStr ← getProp input "connectionString"
  let _ ← cb.connect
  let queryV ← getProp input "query"
  let paramsV ← getProp input "parameters"
  let qr ← cb.query queryV (if jsTruthy paramsV then paramsV else JsVal.arr [])
  Except.ok (qr.rows, rowCountOrZero qr.rowCount)

/-- `PostgreSQLQueryNode.execute`: the catch clause converts any throw —
a structurally invalid input included — into `{success:false, error,
metrics:{executionTime, recordsProcessed:0}}`.  The finally block closes
the client; an error thrown by close is swallowed (console.warn) and
never alters the returned envelope, so closing does not appear in the
result. -/
def execute (cb : PGClientBehavior) (elapsed : Nat) (input : JsVal) :
    NodeResult PostgreSQLOutput :=
  match executeBody cb input with
  | Except.ok (rows, n) =>
    { success := true,
      data := some { result := rows, rowCount := n },
      error := Option.none,
      metrics := some { executionTime := elapsed, recordsProcessed := n } }
  | Except.error e =>
    { success := false, data := Option.none, error := some e,
      metrics := some { executionTime := elapsed, recordsProcessed := 0 } }

end PostgreSQLQueryNode

/-! ## MongoDB operations node (src/nodes/database/mongodb-operations.node.ts) -/

/-- What one run of the operation yields when it succeeds: the fields the
`executeOperation` switch returns (spread into `data`) and the value of
`getRecordsProcessed(result, operation)`. -/
structure MongoOpResult where
  fields : List (String × JsVal)
  recordsProcessed : Nat

/-- The behaviour of the MongoDB driver during one `execute` call:
`connect` is the final outcome of `connectWithRetry` (the bounded retry
loop with backoff is folded into this single outcome — its error is the
"Failed to connect after N attempts: …" message), and `operation` is the
outcome of `Promise.race([executeOperation(…), createTimeoutPromise(…)])`
— an error covers both an operation failure and the timeout winning. -/
structure MongoBehavior where
  connect : Except String Unit
  operation : Except String MongoOpResult

namespace MongoDBOperationsNode

/-- Lines 207-210 of the source, which run BEFORE the try block:
`const timeout = input.options?.timeout || this.config.defaultTimeout || 30000`
and the same shape for `retries`.  The read `input.options` throws on a
nullish input, and `this.config.defaultTimeout` throws on a nullish
config when the first operand is falsy — and nothing catches either.
`input.options` is read once and reused (the source reads it twice in a
row; once the first read succeeded the second cannot differ).  The
computed numbers only configure the client and the timeout race, which
the behaviour oracle already fixes. -/
def preTryReads (config input : JsVal) : Except String Unit := do
  let optionsV ← getProp input "options"
  let timeoutV := if jsNullish optionsV then JsVal.undef else getPropD optionsV "timeout"
  let _ ← if jsTruthy timeoutV then Except.ok timeoutV else do
      let d ← getProp config "defaultTimeout"
      Except.ok (if jsTruthy d then d else JsVal.num 30000)
  let retriesV := if jsNullish optionsV then JsVal.undef else getPropD optionsV "retries"
  let _ ← if jsTruthy retriesV then Except.ok retriesV else do
      let d ← getProp config "defaultRetries"
      Except.ok (if jsTruthy d then d else JsVal.num 3)
  Except.ok ()

/-- The try-block: connect with retry, open db and collection (plain
property reads on the now non-nullish input), race the operation against
the timeout. -/
def tryBody (mb : MongoBehavior) (input : JsVal) :
    Except String (List (String × JsVal) × Nat) := do
  let _connStr := getPropD input "connectionString"
  let _ ← mb.connect
  let _db := getPropD input "database"
  let _coll := getPropD input "collection"
  let res ← mb.operation
  Except.ok (res.fields, res.recordsProcessed)

/-- `MongoDBOperationsNode.execute`.  The outer `Except` is the async
function's rejection channel: a throw from the pre-try reads escapes the
catch below and the returned promise REJECTS — the caller sees an
exception, not an envelope.  Once the try block is entered, every failure
is caught into `{success:false, error}` (no metrics in the catch), and
the finally's `disconnect` swallows its own errors. -/
def execute (mb : MongoBehavior) (elapsed : Nat) (config input : JsVal) :
    Except String (NodeResult JsVal) := do
  let _ ← preTryReads config input
  Except.ok (match tryBody mb input with
    | Except.ok (fields, n) =>
      { success := true,
        data := some (JsVal.obj (mapSet fields "operationType" (getPropD input "operation"))),
        error := Option.none,
        metrics := some { executionTime := elapsed, recordsProcessed := n } }
    | Except.error e =>
      { success := false, data := Option.none, error := some e, metrics := Option.none })

end MongoDBOperationsNode

/-! ## Node registry (src/base/node-registry.ts) -/

/-- The identity fields the registry's metadata fallback reads off a
throwaway instance, plus the configuration captured at construction.  Each
identity field may be absent (undefined); `ctorName` is
`instance.constructor.name`. -/
structure NodeInstance where
  type : Option String
  version : Option String
  category : Option String
  ctorName : String
  config : JsVal

/-- The metadata descriptor, restricted to the fields the registry code
touches; input/output descriptors are opaque values here. -/
structure NodeMetadata where
  type : String
  name : String
  description : String
  version : String
  category : String
  inputs : List JsVal
  outputs : List JsVal

/-- A registered class as the registry observes it: an optional static
`getMetadata` (present for every class deriving BaseNode — the base's
version throws — and absent only for classes without it anywhere), whose
call may throw; a zero-argument construction attempt, which may throw when
the constructor requires configuration; and construction from a
configuration value. -/
structure NodeClass where
  getMetadataS : Option (Except String NodeMetadata)
  mkNoArgs : Except String NodeInstance
  make : JsVal → NodeInstance

/-- `NodeRegistry`: a `Map` from type string to class. -/
structure NodeRegistry where
  nodes : List (String × NodeClass)

namespace NodeRegistry

/-- A fresh registry (`new Map()`). -/
def empty : NodeRegistry := { nodes := [] }

/-- `register(nodeClass, type)`: `this.nodes.set(type, nodeClass)`. -/
def register (r : NodeRegistry) (nodeClass : NodeClass) (type : String) : NodeRegistry :=
  { nodes := mapSet r.nodes type nodeClass }

/-- `create(type, config)`: throw "Node type '…' not found" when the map
misses, otherwise `new NodeClass(config)`. -/
def create (r : NodeRegistry) (type : String) (config : JsVal) : Except String NodeInstance :=
  match mapGet r.nodes type with
  | Option.none => Except.error ("Node type '" ++ type ++ "' not found")
  | some c => Except.ok (c.make config)

/-- `getAvailableTypes()`: the map's keys in insertion order. -/
def getAvailableTypes (r : NodeRegistry) : List String :=
  r.nodes.map Prod.fst

/-- JavaScript `a || d` on a possibly-undefined string: falls through on
undefined and on the empty string. -/
def jsOrStr (o : Option String) (d : String) : String :=
  match o with
  | some s => if s = "" then d else s
  | Option.none => d

/-- `instance.constructor.name.replace(/Node$/, "")`: strip one trailing
"Node" when present (checked over the character list so that concrete
names evaluate). -/
def stripNodeSuffix (s : String) : String :=
  if charsStartWith s.data.reverse ("Node".data.reverse)
  then String.mk (s.data.take (s.data.length - 4))
  else s

/-- `getNodeMetadata(type)`: null on a registry miss; else call the static
`getMetadata` if the class has one, a throw yielding null; else construct
a throwaway instance and synthesize a minimal descriptor with empty
input/output lists; a throwing construction also yields null. -/
def getNodeMetadata (r : NodeRegistry) (type : String) : Option NodeMetadata :=
  match mapGet r.nodes type with
  | Option.none => Option.none
  | some c =>
    match c.getMetadataS with
    | some call =>
      match call with
      | Except.ok md => some md
      | Except.error _ => Option.none
    | Option.none =>
      match c.mkNoArgs with
      | Except.ok inst =>
        some { type := jsOrStr inst.type type,
               name := stripNodeSuffix inst.ctorName,
               description := "Auto-generated metadata for " ++ type,
               version := jsOrStr inst.version "1.0.0",
               category := jsOrStr inst.category "transformation",
               inputs := [], outputs := [] }
      | Except.error _ => Option.none

/-- A whole bootstrap: fold a sequence of `register` calls over the fresh
registry. -/
def applyRegs (ops : List (NodeClass × String)) : NodeRegistry :=
  ops.foldl (fun r p => r.register p.1 p.2) NodeRegistry.empty

/-- The class of the most recent registration of `t` in the sequence. -/
def lastClass (ops : List (NodeClass × String)) (t : String) : Option NodeClass :=
  (ops.reverse.find? (fun p => p.2 == t)).map (fun p => p.1)

end NodeRegistry

/-! ## Helper lemmas and concrete inputs -/

/-- Bind on an ok value reduces. -/
theorem except_ok_bind {α β : Type} (a : α) (f : α → Except String β) :
    (Except.ok a >>= f : Except String β) = f a := rfl

/-- Property reads on non-nullish values never throw. -/
theorem getProp_nonNullish (v : JsVal) (k : String) (h : jsNullish v = false) :
    getProp v k = Except.ok (getPropD v k) := by
  cases v <;> first | rfl | simp [jsNullish] at h

/-- A well-formed result envelope: success with no error, or failure with
an error message — the only two shapes an `execute` can resolve to. -/
def envelopeOk {α : Type} (r : NodeResult α) : Prop :=
  (r.success = true ∧ r.error = Option.none) ∨ (r.success = false ∧ ∃ e, r.error = some e)

/-- The filtered list the data-filter node computes on well-formed input. -/
def dfFiltered (xs cs : List JsVal) : List JsVal :=
  xs.filter (fun x => cs.all (fun c => DataFilterNode.condHolds x c))

/-- The spec's end-to-end filter scenario: three age records and one
`greater_than` condition. -/
def dfExampleInput : JsVal :=
  JsVal.obj [("data", JsVal.arr [JsVal.obj [("age", JsVal.num 25)],
                                 JsVal.obj [("age", JsVal.num 31)],
                                 JsVal.obj [("age", JsVal.num 40)]]),
             ("conditions", JsVal.arr [JsVal.obj [("field", JsVal.str "age"),
                                                  ("operator", JsVal.str "greater_than"),
                                                  ("value", JsVal.num 30)]])]

/-- An input whose `data` and `conditions` fields are both arrays but whose
single data element is null: evaluating the condition on it throws. -/
def dfBadInput : JsVal :=
  JsVal.obj [("data", JsVal.arr [JsVal.null]),
             ("conditions", JsVal.arr [JsVal.obj [("field", JsVal.str "a"),
                                                  ("operator", JsVal.str "equals"),
                                                  ("value", JsVal.num 1)]])]

/-- The spec's field-mapper rename scenario: a single non-array source. -/
def fmExampleInput : JsVal :=
  JsVal.obj [("source", JsVal.obj [("first_name", JsVal.str "John")]),
             ("mapping", JsVal.arr [JsVal.obj [("sourceField", JsVal.str "first_name"),
                                               ("targetField", JsVal.str "firstName"),
                                               ("transformation", JsVal.str "rename")]])]

/-- The fields of a field-mapper input with a null source and a non-empty
mapping that reads a source field. -/
def nullSourceFields : List (String × JsVal) :=
  [("source", JsVal.null),
   ("mapping", JsVal.arr [JsVal.obj [("sourceField", JsVal.str "first_name"),
                                     ("targetField", JsVal.str "firstName"),
                                     ("transformation", JsVal.str "rename")]])]

/-- The null-source input itself. -/
def nullSourceInput : JsVal := JsVal.obj nullSourceFields

/-- A concrete instance for registry scenarios. -/
def sampleInstance : NodeInstance :=
  { type := some "sample", version := some "1.0.0", category := some "transformation",
    ctorName := "SampleNode", config := JsVal.null }

/-- A concrete registrable class without a static `getMetadata`. -/
def sampleClass : NodeClass :=
  { getMetadataS := Option.none,
    mkNoArgs := Except.ok sampleInstance,
    make := fun cfg => { sampleInstance with config := cfg } }

/-- A second concrete class, distinguishable from `sampleClass`. -/
def sampleClassB : NodeClass :=
  { getMetadataS := Option.none,
    mkNoArgs := Except.ok { sampleInstance with ctorName := "SampleBNode" },
    make := fun cfg => { sampleInstance with ctorName := "SampleBNode", config := cfg } }

/-- A class whose static `getMetadata` throws (the BaseNode default). -/
def throwingMetaClass : NodeClass :=
  { getMetadataS := some (Except.error "Static getMetadata() method must be implemented by node classes"),
    mkNoArgs := Except.ok sampleInstance,
    make := fun cfg => { sampleInstance with config := cfg } }

/-- A class without a static `getMetadata` whose zero-argument
construction throws. -/
def hardCtorClass : NodeClass :=
  { getMetadataS := Option.none,
    mkNoArgs := Except.error "mandatory configuration missing",
    make := fun cfg => { sampleInstance with config := cfg } }

/-- The error issue `validateCompatibility` pushes on an invalid base
check. -/
def errIssueOf (source target : PinRef) : Issue :=
  { severity := Severity.error,
    message := "No compatibility rule found between " ++ source.type ++ " and " ++ target.type }

/-- The base-check issues of `validateCompatibility`: empty when the base
check is valid, the single error issue otherwise. -/
def baseIssuesOf (source target : PinRef) : List Issue :=
  if (CompatibilityValidator.check source.type target.type).valid then []
  else [errIssueOf source target]

/-- The schema issues of `validateCompatibility`: one warning when both
schemas are present, their `type` fields differ and neither is the
wildcard `any`; empty otherwise. -/
def schemaIssuesOf (source target : PinRef) : List Issue :=
  match source.schema, target.schema with
  | some ss, some ts =>
    if ss.type != ts.type && ss.type != some "any" && ts.type != some "any"
    then [{ severity := Severity.warning,
            message := "Schema type mismatch: source outputs '" ++
              CompatibilityValidator.schemaTypeText ss.type ++
              "' but target expects '" ++ CompatibilityValidator.schemaTypeText ts.type ++ "'" }]
    else []
  | _, _ => []

/-- `validateCompatibility` unfolded into its two issue groups. -/
theorem vc_spec (source target : PinRef) :
    CompatibilityValidator.validateCompatibility source target =
      { compatible := (CompatibilityValidator.check source.type target.type).valid &&
          (((baseIssuesOf source target ++ schemaIssuesOf source target).filter
            (fun i => i.severity == Severity.error)).length == 0),
        issues := baseIssuesOf source target ++ schemaIssuesOf source target } := rfl

/-- Every schema issue carries warning severity. -/
theorem schemaIssuesOf_warning (source target : PinRef) :
    ∀ i ∈ schemaIssuesOf source target, i.severity = Severity.warning := by
  intro i hi
  unfold schemaIssuesOf at hi
  rcases hs : source.schema with _ | ss
  all_goals rcases ht : target.schema with _ | ts
  all_goals rw [hs, ht] at hi
  all_goals simp at hi
  rw [hi.2]

/-- No schema issue survives the error filter. -/
theorem schemaIssuesOf_filter_error (source target : PinRef) :
    (schemaIssuesOf source target).filter (fun i => i.severity == Severity.error) = [] := by
  rw [List.filter_eq_nil_iff]
  intro a ha
  rw [schemaIssuesOf_warning source target a ha]
  simp

/-- A valid base check makes the outcome compatible, with exactly the
schema issues. -/
theorem vc_valid (source target : PinRef)
    (h : (CompatibilityValidator.check source.type target.type).valid = true) :
    CompatibilityValidator.validateCompatibility source target =
      { compatible := true, issues := schemaIssuesOf source target } := by
  rw [vc_spec]
  unfold baseIssuesOf
  rw [h]
  simp [schemaIssuesOf_filter_error]

/-- An invalid base check makes the outcome incompatible, the error issue
heading the issue list. -/
theorem vc_invalid (source target : PinRef)
    (h : (CompatibilityValidator.check source.type target.type).valid = false) :
    CompatibilityValidator.validateCompatibility source target =
      { compatible := false, issues := errIssueOf source target :: schemaIssuesOf source target } := by
  rw [vc_spec]
  unfold baseIssuesOf
  rw [h]
  simp

/-- The check's validity bit is exactly "the level is not none". -/
theorem check_valid_iff (s t : String) :
    (CompatibilityValidator.check s t).valid = true ↔
    (CompatibilityValidator.check s t).level ≠ CompatibilityLevel.none := by
  unfold CompatibilityValidator.check
  simp [bne_iff_ne]

/-- A registry holding a class with a throwing static accessor, a class
with no static accessor, and a class whose fallback construction fails. -/
def c5Registry : NodeRegistry :=
  NodeRegistry.register
    (NodeRegistry.register
      (NodeRegistry.register NodeRegistry.empty throwingMetaClass "base-like")
      sampleClass "plain")
    hardCtorClass "hard"

/-! ## Claim theorems -/

/-- A sourceType missing the declared keys and the inherited member names
makes the whole check come out `{none, false}` whatever the target. -/
theorem check_undeclared_source (s t : String)
    (h1 : CompatibilityValidator.matrixRows.lookup s = Option.none)
    (h2 : s ≠ "__proto__")
    (h3 : CompatibilityValidator.objectProtoFns.lookup s = Option.none) :
    CompatibilityValidator.check s t =
      { level := CompatibilityLevel.none, valid := false } := by
  have hf : CompatibilityValidator.matrixFirst s = CompatibilityValidator.RowVal.undef := by
    unfold CompatibilityValidator.matrixFirst
    rw [h1, if_neg h2, h3]
  have hl : CompatibilityValidator.matrixLookup s t = CompatibilityLevel.undefVal := by
    unfold CompatibilityValidator.matrixLookup
    rw [hf]
  unfold CompatibilityValidator.check
  rw [hl]
  rfl

/-- A declared sourceType with a targetType missing the row's keys and the
inherited member names likewise checks to `{none, false}`. -/
theorem check_undeclared_target (s t : String)
    (entries : List (String × CompatibilityLevel))
    (h1 : CompatibilityValidator.matrixRows.lookup s = some entries)
    (h2 : entries.lookup t = Option.none)
    (h3 : t ≠ "__proto__")
    (h4 : CompatibilityValidator.objectProtoFns.lookup t = Option.none) :
    CompatibilityValidator.check s t =
      { level := CompatibilityLevel.none, valid := false } := by
  have hf : CompatibilityValidator.matrixFirst s =
      CompatibilityValidator.RowVal.row entries := by
    unfold CompatibilityValidator.matrixFirst
    rw [h1]
  have hr : CompatibilityValidator.rowProp entries t = CompatibilityLevel.undefVal := by
    unfold CompatibilityValidator.rowProp
    rw [h2, if_neg h3, h4]
  have hl : CompatibilityValidator.matrixLookup s t = CompatibilityLevel.undefVal := by
    unfold CompatibilityValidator.matrixLookup
    rw [hf]
    exact hr
  unfold CompatibilityValidator.check
  rw [hl]
  rfl

/-- C1 (amended): the absent-means-none rule holds only for genuine
misses.  If sourceType is neither a declared source key nor an inherited
`Object.prototype` member name, `check` returns `{level:'none',
valid:false}` for every targetType (the optional chain short-circuits on
undefined); likewise when sourceType hits a declared row and targetType
misses both the row's own keys and the inherited member names.  `valid`
always equals `level != 'none'`.  (As frozen the claim fails: lookups on
prototype-member names leak truthy out-of-enumeration levels or even
throw — see the counterexample.) -/
theorem C1_check_absent_is_none : ∀ s t : String,
    (CompatibilityValidator.matrixRows.lookup s = Option.none →
     s ≠ "__proto__" →
     CompatibilityValidator.objectProtoFns.lookup s = Option.none →
      CompatibilityValidator.check s t =
        { level := CompatibilityLevel.none, valid := false }) ∧
    (∀ entries, CompatibilityValidator.matrixRows.lookup s = some entries →
     entries.lookup t = Option.none →
     t ≠ "__proto__" →
     CompatibilityValidator.objectProtoFns.lookup t = Option.none →
      CompatibilityValidator.check s t =
        { level := CompatibilityLevel.none, valid := false }) ∧
    ((CompatibilityValidator.check s t).valid =
      ((CompatibilityValidator.check s t).level != CompatibilityLevel.none)) := by
  intro s t
  exact ⟨check_undeclared_source s t,
         fun entries => check_undeclared_target s t entries, rfl⟩

/-- Counterexample for C1 as frozen: ('constructor', 'name') has no entry
in the declared matrix, yet the lookup walks the prototype chain
(`matrix['constructor']` is the `Object` constructor inherited from
`Object.prototype`, whose own `name` is the string "Object"), so `check`
returns the truthy out-of-enumeration level 'Object' with `valid:true`;
and the pair ('toString', 'caller') reaches the `Function.prototype`
accessor whose get throws a TypeError (the `thrown` marker records the
message), so `check` is not even throw-free over all strings. -/
theorem C1_counterexample :
    CompatibilityValidator.matrixRows.lookup "constructor" = Option.none ∧
    CompatibilityValidator.check "constructor" "name" =
      { level := CompatibilityLevel.strVal "Object", valid := true } ∧
    CompatibilityValidator.matrixLookup "toString" "caller" =
      CompatibilityLevel.thrown "'caller', 'callee', and 'arguments' properties may not be accessed on strict mode functions or the arguments objects for calls to them" :=
  ⟨by decide, by decide, by decide⟩

/-- Witness for C1: the spec's unknown pair misses the declared matrix and
the prototype chain alike, and maps to `{level:'none', valid:false}`; a
declared source with an unknown target does too. -/
theorem C1_witness :
    (CompatibilityValidator.check "notification-node" "ai-ml-node" =
      { level := CompatibilityLevel.none, valid := false }) ∧
    (CompatibilityValidator.check "postgresql-query" "ai-ml-node" =
      { level := CompatibilityLevel.none, valid := false }) :=
  ⟨(C1_check_absent_is_none "notification-node" "ai-ml-node").1 rfl (by decide) rfl,
   (C1_check_absent_is_none "postgresql-query" "ai-ml-node").2.1
      [ ("data-filter", CompatibilityLevel.full),
        ("field-mapper", CompatibilityLevel.full),
        ("mongodb-operations", CompatibilityLevel.partialLvl) ] rfl rfl (by decide) rfl⟩

/-- C9 (amended): self-compatibility is never assumed for genuine node
type names: a type that misses both the declared source keys and the
inherited `Object.prototype` member names self-checks to `{level:'none',
valid:false}`, and so does a declared type whose row has no self-entry and
whose name is no inherited member (true of all four built-ins).  Among the
built-ins only mongodb-operations declares a self-entry (at `full`); the
other three self-check to `none`.  (As frozen the universal part fails on
prototype-member names — see the counterexample.) -/
theorem C9_self_compatibility : ∀ t : String,
    (CompatibilityValidator.matrixRows.lookup t = Option.none →
     t ≠ "__proto__" →
     CompatibilityValidator.objectProtoFns.lookup t = Option.none →
      CompatibilityValidator.check t t =
        { level := CompatibilityLevel.none, valid := false }) ∧
    (∀ entries, CompatibilityValidator.matrixRows.lookup t = some entries →
     entries.lookup t = Option.none →
     t ≠ "__proto__" →
     CompatibilityValidator.objectProtoFns.lookup t = Option.none →
      CompatibilityValidator.check t t =
        { level := CompatibilityLevel.none, valid := false }) ∧
    CompatibilityValidator.check "mongodb-operations" "mongodb-operations" =
      { level := CompatibilityLevel.full, valid := true } ∧
    CompatibilityValidator.check "postgresql-query" "postgresql-query" =
      { level := CompatibilityLevel.none, valid := false } ∧
    CompatibilityValidator.check "data-filter" "data-filter" =
      { level := CompatibilityLevel.none, valid := false } ∧
    CompatibilityValidator.check "field-mapper" "field-mapper" =
      { level := CompatibilityLevel.none, valid := false } := by
  intro t
  exact ⟨check_undeclared_source t t,
         fun entries => check_undeclared_target t t entries,
         by decide, by decide, by decide, by decide⟩

/-- Counterexample for C9 as frozen: T = 'constructor' has no declared
(T, T) entry — no row at all — yet `check('constructor','constructor')`
reaches the `Function` constructor through the prototype chain
(`matrix['constructor']` is `Object`, whose inherited `constructor` is
`Function`), a truthy value, so the self-check is valid:true instead of
`{none,false}`. -/
theorem C9_counterexample :
    CompatibilityValidator.matrixRows.lookup "constructor" = Option.none ∧
    CompatibilityValidator.check "constructor" "constructor" =
      { level := CompatibilityLevel.fnVal "Function" 1 true, valid := true } :=
  ⟨by decide, by decide⟩

/-- Witness for C9: data-filter is a declared type with no self-entry and
its self-check is `none`; an undeclared genuine name self-checks to `none`
too. -/
theorem C9_witness :
    (CompatibilityValidator.check "data-filter" "data-filter" =
      { level := CompatibilityLevel.none, valid := false }) ∧
    (CompatibilityValidator.check "notification-node" "notification-node" =
      { level := CompatibilityLevel.none, valid := false }) :=
  ⟨(C9_self_compatibility "data-filter").2.1
      [ ("field-mapper", CompatibilityLevel.full),
        ("mongodb-operations", CompatibilityLevel.full),
        ("postgresql-query", CompatibilityLevel.partialLvl) ] rfl rfl (by decide) rfl,
   (C9_self_compatibility "notification-node").1 rfl (by decide) rfl⟩

/-- The base issues never contribute a warning. -/
theorem baseIssuesOf_filter_warning (source target : PinRef) :
    (baseIssuesOf source target).filter (fun i => i.severity == Severity.warning) = [] := by
  unfold baseIssuesOf
  split <;> simp [errIssueOf]

/-- The warning filter over the outcome's issues is exactly the schema
issues. -/
theorem vc_filter_warning (source target : PinRef) :
    (CompatibilityValidator.validateCompatibility source target).issues.filter
      (fun i => i.severity == Severity.warning) = schemaIssuesOf source target := by
  have hself : (schemaIssuesOf source target).filter
      (fun i => i.severity == Severity.warning) = schemaIssuesOf source target := by
    rw [List.filter_eq_self]
    intro a ha
    rw [schemaIssuesOf_warning source target a ha]
    rfl
  cases hv : (CompatibilityValidator.check source.type target.type).valid
  · rw [vc_invalid source target hv]
    simp only [List.filter_cons]
    rw [hself]
    simp [errIssueOf]
  · rw [vc_valid source target hv]
    exact hself

/-- Under a present-schema type mismatch away from `any`, the schema
issues are a single warning. -/
theorem schemaIssuesOf_mismatch_len (source target : PinRef) (ss ts : SchemaV)
    (sty tty : String) (hss : source.schema = some ss) (hts : target.schema = some ts)
    (hsty : ss.type = some sty) (htty : ts.type = some tty)
    (hne : sty ≠ tty) (hsa : sty ≠ "any") (hta : tty ≠ "any") :
    (schemaIssuesOf source target).length = 1 := by
  unfold schemaIssuesOf
  rw [hss, hts]
  have hcond : (ss.type != ts.type && ss.type != some "any" && ts.type != some "any") = true := by
    rw [hsty, htty]
    simp [hne, hsa, hta]
  simp [hcond]

/-- C2: `validateCompatibility` is compatible exactly when the base level
is not `none` and no error-severity issue is present; a present-schema
type mismatch away from `any` emits exactly one warning issue; warnings
never flip compatibility — a non-`none` base level is compatible whatever
the schemas, a `none` base level incompatible whatever the schemas. -/
theorem C2_validateCompatibility (source target : PinRef) :
    ((CompatibilityValidator.validateCompatibility source target).compatible = true ↔
      ((CompatibilityValidator.check source.type target.type).level ≠ CompatibilityLevel.none ∧
       ∀ i ∈ (CompatibilityValidator.validateCompatibility source target).issues,
         i.severity ≠ Severity.error)) ∧
    (∀ (ss ts : SchemaV) (sty tty : String),
      source.schema = some ss → target.schema = some ts →
      ss.type = some sty → ts.type = some tty →
      sty ≠ tty → sty ≠ "any" → tty ≠ "any" →
      ((CompatibilityValidator.validateCompatibility source target).issues.filter
        (fun i => i.severity == Severity.warning)).length = 1) ∧
    ((CompatibilityValidator.check source.type target.type).level ≠ CompatibilityLevel.none →
      (CompatibilityValidator.validateCompatibility source target).compatible = true) ∧
    ((CompatibilityValidator.check source.type target.type).level = CompatibilityLevel.none →
      (CompatibilityValidator.validateCompatibility source target).compatible = false) := by
  refine ⟨⟨?_, ?_⟩, ?_, ?_, ?_⟩
  · intro hc
    cases hv : (CompatibilityValidator.check source.type target.type).valid
    · rw [vc_invalid source target hv] at hc
      simp at hc
    · refine ⟨(check_valid_iff source.type target.type).mp hv, ?_⟩
      intro i hi h
      rw [vc_valid source target hv] at hi
      simp only at hi
      rw [schemaIssuesOf_warning source target i hi] at h
      simp at h
  · intro h
    rw [vc_valid source target ((check_valid_iff source.type target.type).mpr h.1)]
  · intro ss ts sty tty hss hts hsty htty hne hsa hta
    rw [vc_filter_warning source target]
    exact schemaIssuesOf_mismatch_len source target ss ts sty tty hss hts hsty htty hne hsa hta
  · intro hl
    rw [vc_valid source target ((check_valid_iff source.type target.type).mpr hl)]
  · intro hl
    cases hv : (CompatibilityValidator.check source.type target.type).valid
    · rw [vc_invalid source target hv]
    · exact absurd hl ((check_valid_iff source.type target.type).mp hv)

/-- Witness for C2: the spec's scenario 3 — `full` base level with an
`array`/`object` schema mismatch stays compatible and reports one
warning. -/
theorem C2_witness :
    ((CompatibilityValidator.validateCompatibility
        { type := "postgresql-query", pin := "result", schema := some { type := some "array" } }
        { type := "data-filter", pin := "data", schema := some { type := some "object" } }).compatible
      = true) ∧
    (((CompatibilityValidator.validateCompatibility
        { type := "postgresql-query", pin := "result", schema := some { type := some "array" } }
        { type := "data-filter", pin := "data", schema := some { type := some "object" } }).issues.filter
          (fun i => i.severity == Severity.warning)).length = 1) :=
  ⟨(C2_validateCompatibility _ _).2.2.1 (by decide),
   (C2_validateCompatibility _ _).2.1 { type := some "array" } { type := some "object" }
      "array" "object" rfl rfl rfl rfl (by decide) (by decide) (by decide)⟩

/-- Bind on an error value short-circuits. -/
theorem except_error_bind {α β : Type} (e : String) (f : α → Except String β) :
    (Except.error e >>= f : Except String β) = Except.error e := rfl

/-- C3: the data-filter, field-mapper and PostgreSQL nodes resolve to a
result envelope for every input value — null, undefined and structurally
invalid ones included — and every behaviour of the underlying client or
user-supplied transformation, and so does the MongoDB node whenever its
call returns at all.  But the MongoDB node breaks the claimed boundary:
its `execute(null)` (and `execute(undefined)`) evaluates `input.options`
before the try block, so the TypeError escapes the catch and the promise
rejects instead of resolving to an envelope — the claim states the
intended contract (spec §4.1/§7), which the code violates at this one
spot. -/
theorem C3_execute_boundary :
    (∀ (mb : MongoBehavior) (elapsed : Nat) (config : JsVal),
      MongoDBOperationsNode.execute mb elapsed config JsVal.null =
        Except.error "Cannot read properties of null (reading 'options')" ∧
      MongoDBOperationsNode.execute mb elapsed config JsVal.undef =
        Except.error "Cannot read properties of undefined (reading 'options')") ∧
    (∀ (elapsed : Nat) (input : JsVal), envelopeOk (DataFilterNode.execute elapsed input)) ∧
    (∀ (evalFn : FnOracle) (elapsed : Nat) (input : JsVal),
      envelopeOk (FieldMapperNode.execute evalFn elapsed input)) ∧
    (∀ (cb : PGClientBehavior) (elapsed : Nat) (input : JsVal),
      envelopeOk (PostgreSQLQueryNode.execute cb elapsed input)) ∧
    (∀ (mb : MongoBehavior) (elapsed : Nat) (config input : JsVal)
      (res : NodeResult JsVal),
      MongoDBOperationsNode.execute mb elapsed config input = Except.ok res →
      envelopeOk res) := by
  refine ⟨?_, ?_, ?_, ?_, ?_⟩
  · intro mb elapsed config
    exact ⟨rfl, rfl⟩
  · intro elapsed input
    unfold DataFilterNode.execute envelopeOk
    cases DataFilterNode.executeBody input
    · exact Or.inr ⟨rfl, _, rfl⟩
    · exact Or.inl ⟨rfl, rfl⟩
  · intro evalFn elapsed input
    unfold FieldMapperNode.execute envelopeOk
    cases FieldMapperNode.executeBody evalFn input
    · exact Or.inr ⟨rfl, _, rfl⟩
    · exact Or.inl ⟨rfl, rfl⟩
  · intro cb elapsed input
    unfold PostgreSQLQueryNode.execute envelopeOk
    cases PostgreSQLQueryNode.executeBody cb input
    · exact Or.inr ⟨rfl, _, rfl⟩
    · exact Or.inl ⟨rfl, rfl⟩
  · intro mb elapsed config input res h
    unfold MongoDBOperationsNode.execute at h
    cases hp : MongoDBOperationsNode.preTryReads config input with
    | error e =>
      rw [hp, except_error_bind] at h
      exact Except.noConfusion h
    | ok u =>
      rw [hp, except_ok_bind] at h
      cases ht : MongoDBOperationsNode.tryBody mb input with
      | ok pr =>
        obtain ⟨fields, n⟩ := pr
        rw [ht] at h
        simp only [Except.ok.injEq] at h
        rw [← h]
        exact Or.inl ⟨rfl, rfl⟩
      | error e =>
        rw [ht] at h
        simp only [Except.ok.injEq] at h
        rw [← h]
        exact Or.inr ⟨rfl, e, rfl⟩

/-- C4: `create` on an unregistered type raises the "not found" error and
never returns an instance; on a registered type it constructs a fresh
instance from the supplied configuration. -/
theorem C4_create (r : NodeRegistry) (t : String) (cfg : JsVal) :
    (mapGet r.nodes t = Option.none →
      NodeRegistry.create r t cfg = Except.error ("Node type '" ++ t ++ "' not found")) ∧
    (∀ c : NodeClass, mapGet r.nodes t = some c →
      NodeRegistry.create r t cfg = Except.ok (c.make cfg)) := by
  constructor
  · intro h
    unfold NodeRegistry.create
    rw [h]
  · intro c h
    unfold NodeRegistry.create
    rw [h]

/-- Witness for C4: the empty registry rejects a nonexistent type with the
"not found" error, and a registered type constructs from the
configuration. -/
theorem C4_witness :
    NodeRegistry.create NodeRegistry.empty "nonexistent-type" (JsVal.obj []) =
      Except.error ("Node type 'nonexistent-type' not found") ∧
    NodeRegistry.create (NodeRegistry.register NodeRegistry.empty sampleClass "sample")
        "sample" (JsVal.obj []) =
      Except.ok (sampleClass.make (JsVal.obj [])) :=
  ⟨(C4_create NodeRegistry.empty "nonexistent-type" (JsVal.obj [])).1 rfl,
   (C4_create (NodeRegistry.register NodeRegistry.empty sampleClass "sample")
      "sample" (JsVal.obj [])).2 sampleClass rfl⟩

/-- C5: `getNodeMetadata` returns null for an unregistered type; returns
the static descriptor when the class provides one and its call succeeds;
returns null when that call throws; synthesizes a minimal descriptor with
empty input/output lists from a throwaway zero-argument instance when the
class has no static accessor; and returns null when even that construction
throws — it never throws itself (its Lean type is `Option`). -/
theorem C5_getNodeMetadata (r : NodeRegistry) (t : String) :
    (mapGet r.nodes t = Option.none → NodeRegistry.getNodeMetadata r t = Option.none) ∧
    (∀ (c : NodeClass) (md : NodeMetadata), mapGet r.nodes t = some c →
      c.getMetadataS = some (Except.ok md) →
      NodeRegistry.getNodeMetadata r t = some md) ∧
    (∀ (c : NodeClass) (e : String), mapGet r.nodes t = some c →
      c.getMetadataS = some (Except.error e) →
      NodeRegistry.getNodeMetadata r t = Option.none) ∧
    (∀ (c : NodeClass) (inst : NodeInstance), mapGet r.nodes t = some c →
      c.getMetadataS = Option.none → c.mkNoArgs = Except.ok inst →
      NodeRegistry.getNodeMetadata r t = some
        { type := NodeRegistry.jsOrStr inst.type t,
          name := NodeRegistry.stripNodeSuffix inst.ctorName,
          description := "Auto-generated metadata for " ++ t,
          version := NodeRegistry.jsOrStr inst.version "1.0.0",
          category := NodeRegistry.jsOrStr inst.category "transformation",
          inputs := [], outputs := [] }) ∧
    (∀ (c : NodeClass) (e : String), mapGet r.nodes t = some c →
      c.getMetadataS = Option.none → c.mkNoArgs = Except.error e →
      NodeRegistry.getNodeMetadata r t = Option.none) := by
  refine ⟨?_, ?_, ?_, ?_, ?_⟩
  · intro h
    unfold NodeRegistry.getNodeMetadata
    rw [h]
  · intro c md h1 h2
    simp only [NodeRegistry.getNodeMetadata, h1, h2]
  · intro c e h1 h2
    simp only [NodeRegistry.getNodeMetadata, h1, h2]
  · intro c inst h1 h2 h3
    simp only [NodeRegistry.getNodeMetadata, h1, h2, h3]
  · intro c e h1 h2 h3
    simp only [NodeRegistry.getNodeMetadata, h1, h2, h3]

/-- Witness for C5: one registry exercising the throwing-static branch,
the instance-fallback branch and the failing-fallback branch, plus the
unregistered case. -/
theorem C5_witness :
    NodeRegistry.getNodeMetadata c5Registry "absent" = Option.none ∧
    NodeRegistry.getNodeMetadata c5Registry "base-like" = Option.none ∧
    NodeRegistry.getNodeMetadata c5Registry "plain" = some
      { type := "sample", name := "Sample",
        description := "Auto-generated metadata for plain",
        version := "1.0.0", category := "transformation",
        inputs := [], outputs := [] } ∧
    NodeRegistry.getNodeMetadata c5Registry "hard" = Option.none :=
  ⟨(C5_getNodeMetadata c5Registry "absent").1 rfl,
   (C5_getNodeMetadata c5Registry "base-like").2.2.1 throwingMetaClass
     "Static getMetadata() method must be implemented by node classes" rfl rfl,
   (C5_getNodeMetadata c5Registry "plain").2.2.2.1 sampleClass sampleInstance rfl rfl rfl,
   (C5_getNodeMetadata c5Registry "hard").2.2.2.2 hardCtorClass
     "mandatory configuration missing" rfl rfl rfl⟩

/-- C7: the rename scenario — a single non-array source object
`{first_name:"John"}` with one rename mapping yields the single non-array
object `{firstName:"John"}` as `data.mapped` (not a one-element array) and
`recordsProcessed` 1, whatever the function-transformation oracle and the
measured time are. -/
theorem C7_fieldMapper_rename : ∀ (evalFn : FnOracle) (elapsed : Nat),
    FieldMapperNode.execute evalFn elapsed fmExampleInput =
      { success := true,
        data := some { mapped := JsVal.obj [("firstName", JsVal.str "John")] },
        error := Option.none,
        metrics := some { executionTime := elapsed, recordsProcessed := 1 } } ∧
    (∀ l : List JsVal, JsVal.obj [("firstName", JsVal.str "John")] ≠ JsVal.arr l) := by
  intro evalFn elapsed
  exact ⟨rfl, fun l h => JsVal.noConfusion h⟩

/-- C10: a null `source` passes `validate` (any object input whose source
field is null and whose mapping field is an array validates true, because
`typeof null === 'object'`), yet `execute` on the concrete null-source
input with a non-empty mapping that reads a source field returns a failure
envelope — validate passing does not guarantee execute succeeding. -/
theorem C10_validate_execute_gap :
    (∀ fields : List (String × JsVal),
      getPropD (JsVal.obj fields) "source" = JsVal.null →
      jsIsArray (getPropD (JsVal.obj fields) "mapping") = true →
      FieldMapperNode.validate (JsVal.obj fields) = true) ∧
    (∀ (evalFn : FnOracle) (elapsed : Nat),
      FieldMapperNode.execute evalFn elapsed nullSourceInput =
        { success := false, data := Option.none,
          error := some "Cannot read properties of null (reading 'first_name')",
          metrics := Option.none }) := by
  constructor
  · intro fields h1 h2
    unfold FieldMapperNode.validate
    rw [h1, h2]
    rfl
  · intro evalFn elapsed
    rfl

/-- Witness for C10: at the concrete null-source input, validate is true
while execute fails. -/
theorem C10_witness :
    FieldMapperNode.validate nullSourceInput = true ∧
    FieldMapperNode.execute (fun _ _ => Except.error "unused") 0 nullSourceInput =
      { success := false, data := Option.none,
        error := some "Cannot read properties of null (reading 'first_name')",
        metrics := Option.none } :=
  ⟨C10_validate_execute_gap.1 nullSourceFields rfl rfl,
   C10_validate_execute_gap.2 (fun _ _ => Except.error "unused") 0⟩

/-- A condition check on a non-nullish item and condition never throws and
computes its pure collapse. -/
theorem matchCond_eq_ok (item cond : JsVal)
    (hi : jsNullish item = false) (hc : jsNullish cond = false) :
    DataFilterNode.matchCond item cond = Except.ok (DataFilterNode.condHolds item cond) := by
  have hb : DataFilterNode.matchCond item cond =
      Except.ok (DataFilterNode.opSwitch (getPropD cond "operator")
        (getPropD item (jsToString (getPropD cond "field"))) (getPropD cond "value")) := by
    unfold DataFilterNode.matchCond getPropKey
    rw [getProp_nonNullish cond "field" hc]
    simp only [except_ok_bind]
    rw [getProp_nonNullish item _ hi]
    simp only [except_ok_bind]
    rw [getProp_nonNullish cond "operator" hc]
    simp only [except_ok_bind]
    rw [getProp_nonNullish cond "value" hc]
    simp only [except_ok_bind]
  rw [hb]
  unfold DataFilterNode.condHolds
  rw [hb]

/-- `every` with a callback that never throws computes `List.all`. -/
theorem arrAllM_ok (g : JsVal → Bool) (f : JsVal → Except String Bool) :
    ∀ cs : List JsVal, (∀ c ∈ cs, f c = Except.ok (g c)) →
    arrAllM f cs = Except.ok (cs.all g) := by
  intro cs
  induction cs with
  | nil => intro _; rfl
  | cons c cs ih =>
    intro h
    unfold arrAllM
    rw [h c (List.mem_cons_self c cs)]
    simp only [except_ok_bind]
    cases hg : g c
    · simp [List.all_cons, hg]
    · rw [ih (fun x hx => h x (List.mem_cons_of_mem c hx))]
      simp [List.all_cons, hg]

/-- `filter` with a callback that never throws computes `List.filter`. -/
theorem arrFilterM_ok (g : JsVal → Bool) (f : JsVal → Except String Bool) :
    ∀ xs : List JsVal, (∀ x ∈ xs, f x = Except.ok (g x)) →
    arrFilterM f xs = Except.ok (xs.filter g) := by
  intro xs
  induction xs with
  | nil => intro _; rfl
  | cons x xs ih =>
    intro h
    unfold arrFilterM
    rw [h x (List.mem_cons_self x xs)]
    simp only [except_ok_bind]
    rw [ih (fun y hy => h y (List.mem_cons_of_mem x hy))]
    simp only [except_ok_bind]
    cases hg : g x <;> simp [List.filter_cons, hg]

/-- On array-shaped data and conditions whose entries evaluate without
throwing, the data-filter body computes the plain filter. -/
theorem dfExecuteBody_ok (input : JsVal) (xs cs : List JsVal)
    (hd : getProp input "data" = Except.ok (JsVal.arr xs))
    (hc : getProp input "conditions" = Except.ok (JsVal.arr cs))
    (hx : ∀ x ∈ xs, jsNullish x = false)
    (hcs : ∀ c ∈ cs, jsNullish c = false) :
    DataFilterNode.executeBody input = Except.ok (dfFiltered xs cs) := by
  unfold DataFilterNode.executeBody dfFiltered
  rw [hd]
  simp only [except_ok_bind]
  apply arrFilterM_ok
  intro x hxm
  rw [hc]
  simp only [except_ok_bind]
  apply arrAllM_ok
  intro c hcm
  exact matchCond_eq_ok x c (hx x hxm) (hcs c hcm)

/-- C6 (amended): for every input whose `data` and `conditions` fields are
arrays with no null/undefined entries, `execute` succeeds with
`data.filtered` the subsequence of the data satisfying every condition
under the operator semantics, `filtered_count` its length, and
`metrics.recordsProcessed` the same length.  (The original claim, without
the no-nullish-entries condition, fails: a null data element makes the
condition evaluation throw, so `execute` returns a failure envelope — see
the counterexample.) -/
theorem C6_filter_semantics (elapsed : Nat) (input : JsVal) (xs cs : List JsVal)
    (hd : getProp input "data" = Except.ok (JsVal.arr xs))
    (hc : getProp input "conditions" = Except.ok (JsVal.arr cs))
    (hx : ∀ x ∈ xs, jsNullish x = false)
    (hcs : ∀ c ∈ cs, jsNullish c = false) :
    DataFilterNode.execute elapsed input =
      { success := true,
        data := some { filtered := dfFiltered xs cs,
                       filtered_count := (dfFiltered xs cs).length },
        error := Option.none,
        metrics := some { executionTime := elapsed,
                          recordsProcessed := (dfFiltered xs cs).length } } ∧
    (dfFiltered xs cs).Sublist xs ∧
    (∀ x ∈ dfFiltered xs cs, ∀ c ∈ cs, DataFilterNode.condHolds x c = true) := by
  refine ⟨?_, ?_, ?_⟩
  · unfold DataFilterNode.execute
    rw [dfExecuteBody_ok input xs cs hd hc hx hcs]
  · exact List.filter_sublist xs
  · intro x hxm c hcm
    unfold dfFiltered at hxm
    have hall := List.of_mem_filter hxm
    simp only at hall
    rw [List.all_eq_true] at hall
    exact hall c hcm

/-- Witness for C6: the spec's filtering scenario — three age records and
`age greater_than 30` keep exactly the records aged 31 and 40. -/
theorem C6_witness :
    DataFilterNode.execute 0 dfExampleInput =
      { success := true,
        data := some { filtered := [JsVal.obj [("age", JsVal.num 31)],
                                    JsVal.obj [("age", JsVal.num 40)]],
                       filtered_count := 2 },
        error := Option.none,
        metrics := some { executionTime := 0, recordsProcessed := 2 } } := by
  have h := C6_filter_semantics 0 dfExampleInput
      [JsVal.obj [("age", JsVal.num 25)], JsVal.obj [("age", JsVal.num 31)],
       JsVal.obj [("age", JsVal.num 40)]]
      [JsVal.obj [("field", JsVal.str "age"), ("operator", JsVal.str "greater_than"),
                  ("value", JsVal.num 30)]]
      rfl rfl
      (by intro x hx
          simp only [List.mem_cons, List.not_mem_nil, or_false] at hx
          rcases hx with rfl | rfl | rfl <;> rfl)
      (by intro c hc
          simp only [List.mem_cons, List.not_mem_nil, or_false] at hc
          rcases hc with rfl
          rfl)
  exact h.1

/-- Counterexample for C6 as frozen: this input's `data` and `conditions`
fields are both arrays, yet `execute` returns a failure envelope (the
null data element makes the property read inside the condition check
throw), so "for every input whose data and conditions fields are arrays,
execute succeeds" is false. -/
theorem C6_counterexample :
    getPropD dfBadInput "data" = JsVal.arr [JsVal.null] ∧
    getPropD dfBadInput "conditions" =
      JsVal.arr [JsVal.obj [("field", JsVal.str "a"), ("operator", JsVal.str "equals"),
                            ("value", JsVal.num 1)]] ∧
    DataFilterNode.execute 0 dfBadInput =
      { success := false, data := Option.none,
        error := some "Cannot read properties of null (reading 'a')",
        metrics := Option.none } :=
  ⟨rfl, rfl, rfl⟩

/-- The keys after a `set`: unchanged when the key was present, appended
otherwise. -/
theorem mapSet_keys {α : Type} (m : List (String × α)) (k : String) (v : α) :
    (mapSet m k v).map Prod.fst =
      if m.any (fun p => p.1 == k) then m.map Prod.fst else m.map Prod.fst ++ [k] := by
  unfold mapSet
  split
  case isTrue h =>
    rw [List.map_map]
    apply List.map_congr_left
    intro p hp
    simp only [Function.comp_apply]
    split
    case isTrue h2 => exact (beq_iff_eq.mp h2).symm
    case isFalse _ => rfl
  case isFalse h => simp

/-- Key membership after a `set`. -/
theorem mem_mapSet_keys {α : Type} (m : List (String × α)) (k : String) (v : α) (q : String) :
    q ∈ (mapSet m k v).map Prod.fst ↔ q = k ∨ q ∈ m.map Prod.fst := by
  rw [mapSet_keys]
  split
  case isTrue h =>
    constructor
    · exact Or.inr
    · rintro (rfl | hm)
      · rcases List.any_eq_true.mp h with ⟨p, hp, hpk⟩
        exact List.mem_map.mpr ⟨p, hp, beq_iff_eq.mp hpk⟩
      · exact hm
  case isFalse h =>
    simp [List.mem_append, or_comm]

/-- A `set` keeps the keys duplicate-free. -/
theorem nodup_mapSet {α : Type} (m : List (String × α)) (k : String) (v : α)
    (h : (m.map Prod.fst).Nodup) : ((mapSet m k v).map Prod.fst).Nodup := by
  rw [mapSet_keys]
  split
  case isTrue _ => exact h
  case isFalse hany =>
    refine List.Nodup.append h (List.nodup_singleton k) ?_
    intro a ha hb
    rw [List.mem_singleton] at hb
    subst hb
    apply hany
    rcases List.mem_map.mp ha with ⟨p, hp, hfst⟩
    exact List.any_eq_true.mpr ⟨p, hp, beq_iff_eq.mpr hfst⟩

/-- Lookup of a different key is unchanged by the in-place replacement. -/
theorem lookup_map_replace_ne {α : Type} (m : List (String × α)) (k : String) (v : α)
    (q : String) (hne : q ≠ k) :
    (m.map (fun p => if p.1 == k then (k, v) else p)).lookup q = m.lookup q := by
  induction m with
  | nil => rfl
  | cons p m ih =>
    simp only [List.map_cons]
    by_cases hpk : (p.1 == k) = true
    · rw [if_pos hpk]
      have hp1 : p.1 = k := beq_iff_eq.mp hpk
      have h1 : (q == k) = false := beq_eq_false_iff_ne.mpr hne
      have h2 : (q == p.1) = false := by rw [hp1]; exact h1
      rw [List.lookup_cons, List.lookup_cons]
      simp only [h1, h2]
      exact ih
    · rw [if_neg hpk]
      rw [List.lookup_cons, List.lookup_cons]
      by_cases hq : (q == p.1) = true
      · simp only [hq]
      · simp only [Bool.not_eq_true] at hq
        simp only [hq]
        exact ih

/-- Lookup of the replaced key finds the new value when the key was
present. -/
theorem lookup_map_replace_self {α : Type} (m : List (String × α)) (k : String) (v : α)
    (h : m.any (fun p => p.1 == k) = true) :
    (m.map (fun p => if p.1 == k then (k, v) else p)).lookup k = some v := by
  induction m with
  | nil => simp at h
  | cons p m ih =>
    simp only [List.map_cons]
    by_cases hpk : (p.1 == k) = true
    · rw [if_pos hpk, List.lookup_cons]
      simp only [beq_self_eq_true]
    · rw [if_neg hpk, List.lookup_cons]
      have h2 : m.any (fun p => p.1 == k) = true := by
        rcases List.any_eq_true.mp h with ⟨p2, hp2, hpk2⟩
        rcases List.mem_cons.mp hp2 with rfl | hp3
        · exact absurd hpk2 hpk
        · exact List.any_eq_true.mpr ⟨p2, hp3, hpk2⟩
      have hkp : (k == p.1) = false := by
        rw [beq_eq_false_iff_ne]
        intro heq
        exact hpk (beq_iff_eq.mpr heq.symm)
      simp only [hkp]
      exact ih h2

/-- Lookup of a freshly appended key finds it when the key was absent. -/
theorem lookup_append_self {α : Type} (m : List (String × α)) (k : String) (v : α)
    (h : m.any (fun p => p.1 == k) = false) :
    (m ++ [(k, v)]).lookup k = some v := by
  induction m with
  | nil => simp only [List.nil_append, List.lookup_cons, beq_self_eq_true]
  | cons p m ih =>
    obtain ⟨pk, pv⟩ := p
    simp only [List.any_cons, Bool.or_eq_false_iff] at h
    have hkp : (k == pk) = false := by
      rw [beq_eq_false_iff_ne]
      intro heq
      exact ne_true_of_eq_false h.1 (beq_iff_eq.mpr heq.symm)
    rw [List.cons_append, List.lookup_cons]
    simp only [hkp]
    exact ih h.2

/-- Lookup of a different key ignores the appended pair. -/
theorem lookup_append_ne {α : Type} (m : List (String × α)) (k : String) (v : α)
    (q : String) (hne : q ≠ k) :
    (m ++ [(k, v)]).lookup q = m.lookup q := by
  induction m with
  | nil =>
    rw [List.nil_append, List.lookup_cons]
    simp [beq_eq_false_iff_ne.mpr hne]
  | cons p m ih =>
    obtain ⟨pk, pv⟩ := p
    rw [List.cons_append, List.lookup_cons, List.lookup_cons]
    by_cases hq : (q == pk) = true
    · simp only [hq]
    · simp only [Bool.not_eq_true] at hq
      simp only [hq]
      exact ih

/-- The `Map.set` / `Map.get` law: the set key reads back the new value,
every other key is untouched. -/
theorem mapGet_mapSet {α : Type} (m : List (String × α)) (k : String) (v : α) (q : String) :
    mapGet (mapSet m k v) q = if q = k then some v else mapGet m q := by
  unfold mapGet mapSet
  split
  case isTrue hany =>
    by_cases hk : q = k
    · subst hk
      rw [if_pos rfl]
      exact lookup_map_replace_self m q v hany
    · rw [if_neg hk]
      exact lookup_map_replace_ne m k v q hk
  case isFalse hany =>
    by_cases hk : q = k
    · subst hk
      rw [if_pos rfl]
      exact lookup_append_self m q v (by rwa [Bool.not_eq_true] at hany)
    · rw [if_neg hk]
      exact lookup_append_ne m k v q hk

/-- `register` is `Map.set` on the registry's store. -/
theorem register_nodes (r : NodeRegistry) (c : NodeClass) (t : String) :
    (NodeRegistry.register r c t).nodes = mapSet r.nodes t c := rfl

/-- After a bootstrap sequence, a type's stored class is its most recent
registration. -/
theorem applyRegs_get (ops : List (NodeClass × String)) (t : String) :
    mapGet (NodeRegistry.applyRegs ops).nodes t = NodeRegistry.lastClass ops t := by
  induction ops using List.reverseRecOn with
  | nil => rfl
  | append_singleton ops q ih =>
    unfold NodeRegistry.applyRegs at ih ⊢
    rw [List.foldl_append, List.foldl_cons, List.foldl_nil, register_nodes, mapGet_mapSet]
    unfold NodeRegistry.lastClass at ih ⊢
    rw [List.reverse_append, List.reverse_singleton, List.singleton_append, List.find?_cons]
    by_cases hq : (q.2 == t) = true
    · rw [if_pos (beq_iff_eq.mp hq).symm]
      simp only [hq]
      rfl
    · have hq2 : (q.2 == t) = false := by simpa using hq
      rw [if_neg (fun h => hq (beq_iff_eq.mpr h.symm))]
      simp only [hq2]
      exact ih

/-- Key membership after a bootstrap: exactly the registered types. -/
theorem applyRegs_mem (ops : List (NodeClass × String)) (t : String) :
    ∀ r : NodeRegistry,
      (t ∈ ((ops.foldl (fun r p => r.register p.1 p.2) r).nodes.map Prod.fst) ↔
        t ∈ r.nodes.map Prod.fst ∨ t ∈ ops.map (fun p => p.2)) := by
  induction ops with
  | nil => intro r; simp
  | cons q ops ih =>
    intro r
    rw [List.foldl_cons, ih]
    rw [register_nodes, mem_mapSet_keys]
    simp only [List.map_cons, List.mem_cons]
    tauto

/-- Keys stay duplicate-free along a bootstrap. -/
theorem applyRegs_nodup (ops : List (NodeClass × String)) :
    ∀ r : NodeRegistry, (r.nodes.map Prod.fst).Nodup →
      (((ops.foldl (fun r p => r.register p.1 p.2) r)).nodes.map Prod.fst).Nodup := by
  induction ops with
  | nil => intro r h; exact h
  | cons q ops ih =>
    intro r h
    rw [List.foldl_cons]
    exact ih _ (by rw [register_nodes]; exact nodup_mapSet _ _ _ h)

/-- C8: after any sequence of register calls, `getAvailableTypes` lists
exactly the set of registered type strings, each once; re-registering a
type overwrites its stored constructor without duplicating the type, and
`create` uses the most recently registered class. -/
theorem C8_register_semantics (ops : List (NodeClass × String)) (t : String) (cfg : JsVal) :
    ((NodeRegistry.applyRegs ops).getAvailableTypes).Nodup ∧
    (t ∈ (NodeRegistry.applyRegs ops).getAvailableTypes ↔ t ∈ ops.map (fun p => p.2)) ∧
    (∀ cls : NodeClass, NodeRegistry.lastClass ops t = some cls →
      NodeRegistry.create (NodeRegistry.applyRegs ops) t cfg = Except.ok (cls.make cfg)) := by
  refine ⟨?_, ?_, ?_⟩
  · exact applyRegs_nodup ops NodeRegistry.empty List.nodup_nil
  · have h := applyRegs_mem ops t NodeRegistry.empty
    unfold NodeRegistry.getAvailableTypes
    unfold NodeRegistry.applyRegs
    rw [h]
    simp [NodeRegistry.empty]
  · intro cls h
    unfold NodeRegistry.create
    rw [applyRegs_get, h]

/-- The bootstrap used by the C8 witness: "x" is registered twice, its
second registration winning. -/
def regOpsW : List (NodeClass × String) :=
  [(sampleClass, "x"), (sampleClass, "y"), (sampleClassB, "x")]

/-- Witness for C8: the duplicate registration of "x" leaves the type
listed once and `create` builds from the most recently registered class. -/
theorem C8_witness :
    NodeRegistry.create (NodeRegistry.applyRegs regOpsW) "x" JsVal.null =
      Except.ok (sampleClassB.make JsVal.null) ∧
    (NodeRegistry.applyRegs regOpsW).getAvailableTypes = ["x", "y"] :=
  ⟨(C8_register_semantics regOpsW "x" JsVal.null).2.2 sampleClassB rfl, rfl⟩
